import Mathlib

/-
  Verification development for the IPP dissector
  (epan/dissectors/packet-ipp.c).

  The byte-level attribute parser, the per-value renderers and the
  request/response correlation store are embedded as executable Lean
  definitions, translated from the C source.  Helpers that live in the
  enclosing epan library (tvbuff accessors, hex and text formatting) are
  modelled from the specification, as noted on each definition.
-/

set_option maxRecDepth 4096

namespace Ipp

/-- A captured message buffer (tvbuff): a finite list of bytes.  Each byte of a
well-formed capture is below 256. -/
abbrev Tvb := List Nat

/-- Byte access with default 0.  Structural recursion so that terms reduce
definitionally even when the list holds symbolic entries. -/
def byteAt : Tvb → Nat → Nat
  | [], _ => 0
  | b :: _, 0 => b
  | _ :: rest, n + 1 => byteAt rest n

/-- Modelled from the spec: tvb_offset_exists (epan tvbuff accessor, not under
src/) — true when the offset lies inside the captured buffer. -/
def tvb_offset_exists (tvb : Tvb) (offset : Nat) : Bool :=
  decide (offset < tvb.length)

/-- Modelled from the spec: tvb_get_guint8 (epan tvbuff accessor, not under
src/).  The attribute parser below never decodes a record whose bytes are not
all present (spec 4.3 step 3 and 7(1)), so the out-of-range default 0 is never
exercised by it. -/
def tvb_get_guint8 (tvb : Tvb) (offset : Nat) : Nat :=
  byteAt tvb offset

/-- Modelled from the spec: tvb_get_ntohs — big-endian 16-bit read. -/
def tvb_get_ntohs (tvb : Tvb) (offset : Nat) : Nat :=
  256 * tvb_get_guint8 tvb offset + tvb_get_guint8 tvb (offset + 1)

/-- Modelled from the spec: tvb_get_ntohl — big-endian 32-bit read. -/
def tvb_get_ntohl (tvb : Tvb) (offset : Nat) : Nat :=
  16777216 * tvb_get_guint8 tvb offset + 65536 * tvb_get_guint8 tvb (offset + 1) +
    256 * tvb_get_guint8 tvb (offset + 2) + tvb_get_guint8 tvb (offset + 3)

/-- The sub-list of `len` buffer bytes starting at `offset` (clipped to the
buffer end). -/
def listSlice (tvb : Tvb) (offset len : Nat) : List Nat :=
  (tvb.drop offset).take len

/-- ASCII bytes of a string (all names and patterns used here are ASCII). -/
def strBytes (s : String) : List Nat :=
  s.data.map Char.toNat

/-- Modelled from the spec: tvb_memeql (epan tvbuff helper, not under src/):
true exactly when all `pat.length` buffer bytes starting at `offset` exist and
equal `pat` (the C call returns 0 in that case, and -1 when the bytes are
missing or differ). -/
def tvb_memeql_ok (tvb : Tvb) (offset : Nat) (pat : List Nat) : Bool :=
  decide (offset + pat.length ≤ tvb.length) && (listSlice tvb offset pat.length == pat)

/-- Big-endian 2-byte encoding of a 16-bit quantity. -/
def be16 (n : Nat) : List Nat :=
  [n / 256 % 256, n % 256]

/-- The value denoted by four big-endian bytes.  Mirrors the arithmetic of
`tvb_get_ntohl` term for term. -/
def be32val (a b c d : Nat) : Nat :=
  16777216 * a + 65536 * b + 256 * c + d

/-- A single wire value record: tag, 2-byte name length, name bytes, 2-byte
value length, value bytes. -/
def mkRecord (tag : Nat) (name : List Nat) (val : List Nat) : Tvb :=
  (tag :: (be16 name.length ++ name ++ be16 val.length)) ++ val

/-- Lower-case hexadecimal digit. -/
def hexDigit (n : Nat) : Char :=
  if n < 10 then Char.ofNat (48 + n) else Char.ofNat (87 + n)

/-- Two lower-case hex digits of a byte (printf %02x). -/
def hex2 (b : Nat) : String :=
  String.mk [hexDigit (b / 16 % 16), hexDigit (b % 16)]

/-- Four lower-case hex digits of a 16-bit quantity (printf %04x). -/
def hex4 (v : Nat) : String :=
  hex2 (v / 256 % 256) ++ hex2 (v % 256)

/-- Decimal rendering of a Nat zero-padded on the left to `w` digits
(printf %0wd for non-negative values). -/
def zpad (w : Nat) (n : Nat) : String :=
  let s := toString n
  String.mk (List.replicate (w - s.length) '0') ++ s

/-- printf %02d for a non-negative value. -/
def fmt02 (n : Nat) : String := zpad 2 n

/-- printf %04d for a non-negative value. -/
def fmt04 (n : Nat) : String := zpad 4 n

/-- Two's-complement reading of a 32-bit quantity, as C does when a value read
by tvb_get_ntohl is passed to a signed %d conversion. -/
def int32_of_u32 (v : Nat) : Int :=
  if v < 2147483648 then (v : Int) else (v : Int) - 4294967296

/-- printf %d applied to a 32-bit value: signed decimal. -/
def fmt_int32 (v : Nat) : String :=
  toString (int32_of_u32 v)

/-- Modelled from the spec: display of one text byte (format_text lives in
epan/strutil.c, not under src/).  Printable ASCII is rendered verbatim; other
bytes get a backslash escape.  Every name and text value in the theorems below
is printable ASCII, so the escape branch is never exercised. -/
def format_char (b : Nat) : String :=
  if 32 ≤ b ∧ b ≤ 126 then String.mk [Char.ofNat b] else "\\" ++ hex2 b

/-- Modelled from the spec: format_text over a byte slice. -/
def format_text (bytes : List Nat) : String :=
  String.join (bytes.map format_char)

/-- Modelled from the spec: tvb_bytes_to_str (epan, not under src/) — the raw
hex fallback rendering: two lower-case hex digits per byte. -/
def tvb_bytes_to_str (bytes : List Nat) : String :=
  String.join (bytes.map hex2)

/-- val_to_str_const / val_to_str: look a value up in a value_string table and
fall back to the given string.  (For val_to_str the caller below supplies the
printf-formatted fallback.) -/
def val_to_str_const (v : Nat) (vs : List (Nat × String)) (unknown : String) : String :=
  match vs.find? (fun p => p.1 == v) with
  | some p => p.2
  | none => unknown

/-- operation_vals from the source. -/
def operation_vals : List (Nat × String) := [
  (0x0002, "Print-Job"),
  (0x0003, "Print-URI"),
  (0x0004, "Validate-Job"),
  (0x0005, "Create-Job"),
  (0x0006, "Send-Document"),
  (0x0007, "Send-URI"),
  (0x0008, "Cancel-Job"),
  (0x0009, "Get-Job-Attributes"),
  (0x000A, "Get-Jobs"),
  (0x000B, "Get-Printer-Attributes"),
  (0x000C, "Hold-Job"),
  (0x000D, "Release-Job"),
  (0x000E, "Restart-Job"),
  (0x0010, "Pause-Printer"),
  (0x0011, "Resume-Printer"),
  (0x0012, "Purge-Jobs"),
  (0x0013, "Set-Printer-Attributes"),
  (0x0014, "Set-Job-Attributes"),
  (0x0015, "Get-Printer-Supported-Values"),
  (0x0016, "Create-Printer-Subscriptions"),
  (0x0017, "Create-Job-Subscriptions"),
  (0x0018, "Get-Subscription-Attributes"),
  (0x0019, "Get-Subscriptions"),
  (0x001A, "Renew-Subscription"),
  (0x001B, "Cancel-Subscription"),
  (0x001C, "Get-Notifications"),
  (0x001D, "Reserved (ipp-indp-method)"),
  (0x001E, "Reserved (ipp-get-resources)"),
  (0x001F, "Reserved (ipp-get-resources)"),
  (0x0020, "Reserved (ipp-get-resources)"),
  (0x0021, "Reserved (ipp-install)"),
  (0x0022, "Enable-Printer"),
  (0x0023, "Disable-Printer"),
  (0x0024, "Pause-Printer-After-Current-Job"),
  (0x0025, "Hold-New-Jobs"),
  (0x0026, "Release-Held-New-Jobs"),
  (0x0027, "Deactivate-Printer"),
  (0x0028, "Activate-Printer"),
  (0x0029, "Restart-Printer"),
  (0x002A, "Shutdown-Printer"),
  (0x002B, "Startup-Printer"),
  (0x002C, "Reprocess-Job"),
  (0x002D, "Cancel-Current-Job"),
  (0x002E, "Suspend-Current-Job"),
  (0x002F, "Resume-Job"),
  (0x0030, "Promote-Job"),
  (0x0031, "Schedule-Job-After"),
  (0x0033, "Cancel-Document"),
  (0x0034, "Get-Document-Attributes"),
  (0x0035, "Get-Documents"),
  (0x0036, "Delete-Document"),
  (0x0037, "Set-Document-Attributes"),
  (0x0038, "Cancel-Jobs"),
  (0x0039, "Cancel-My-Jobs"),
  (0x003A, "Resubmit-Job"),
  (0x003B, "Close-Job"),
  (0x003C, "Identify-Printer"),
  (0x003D, "Validate-Document"),
  (0x003E, "Add-Document-Images"),
  (0x003F, "Acknowledge-Document"),
  (0x0040, "Acknowledge-Identify-Printer"),
  (0x0041, "Acknowledge-Job"),
  (0x0042, "Fetch-Document"),
  (0x0043, "Fetch-Job"),
  (0x0044, "Get-Output-Device-Attributes"),
  (0x0045, "Update-Active-Jobs"),
  (0x0046, "Deregister-Output-Device"),
  (0x0047, "Update-Document-Status"),
  (0x0048, "Update-Job-Status"),
  (0x0049, "Update-Output-Device-Attributes"),
  (0x004A, "Get-Next-Document-Data"),
  (0x4001, "CUPS-Get-Default"),
  (0x4002, "CUPS-Get-Printers"),
  (0x4003, "CUPS-Add-Modify-Printer"),
  (0x4004, "CUPS-Delete-Printer"),
  (0x4005, "CUPS-Get-Classes"),
  (0x4006, "CUPS-Add-Modify-Class"),
  (0x4007, "CUPS-Delete-Class"),
  (0x4008, "CUPS-Accept-Jobs"),
  (0x4009, "CUPS-Reject-Jobs"),
  (0x400A, "CUPS-Set-Default"),
  (0x400B, "CUPS-Get-Devices"),
  (0x400C, "CUPS-Get-PPDs"),
  (0x400D, "CUPS-Move-Job"),
  (0x400E, "CUPS-Authenticate-Job"),
  (0x400F, "CUPS-Get-PPD"),
  (0x4027, "CUPS-Get-Document"),
  (0x4028, "CUPS-Create-Local-Printer")]

/-- printer_state_vals from the source. -/
def printer_state_vals : List (Nat × String) := [
  (3, "idle"),
  (4, "processing"),
  (5, "stopped")]

/-- job_state_vals from the source. -/
def job_state_vals : List (Nat × String) := [
  (3, "pending"),
  (4, "pending-held"),
  (5, "processing"),
  (6, "processing-stopped"),
  (7, "canceled"),
  (8, "aborted"),
  (9, "completed")]

/-- document_state_vals from the source. -/
def document_state_vals : List (Nat × String) := [
  (3, "pending"),
  (5, "processing"),
  (6, "processing-stopped"),
  (7, "canceled"),
  (8, "aborted"),
  (9, "completed")]

/-- finishings_vals from the source. -/
def finishings_vals : List (Nat × String) := [
  (3, "none"),
  (4, "staple"),
  (5, "punch"),
  (6, "cover"),
  (7, "bind"),
  (8, "saddle-stitch"),
  (9, "edge-stitch"),
  (10, "fold"),
  (11, "trim"),
  (12, "bale"),
  (13, "booklet-maker"),
  (14, "jog-offset"),
  (15, "coat"),
  (16, "laminate"),
  (20, "staple-top-left"),
  (21, "staple-bottom-left"),
  (22, "staple-top-right"),
  (23, "staple-bottom-right"),
  (24, "edge-stitch-left"),
  (25, "edge-stitch-top"),
  (26, "edge-stitch-right"),
  (27, "edge-stitch-bottom"),
  (28, "staple-dual-left"),
  (29, "staple-dual-top"),
  (30, "staple-dual-right"),
  (31, "staple-dual-bottom"),
  (32, "staple-triple-left"),
  (33, "staple-triple-top"),
  (34, "staple-triple-right"),
  (35, "staple-triple-bottom"),
  (50, "bind-left"),
  (51, "bind-top"),
  (52, "bind-right"),
  (53, "bind-bottom"),
  (60, "trim-after-pages"),
  (61, "trim-after-documents"),
  (62, "trim-after-copies"),
  (63, "trim-after-job"),
  (70, "punch-top-left"),
  (71, "punch-bottom-left"),
  (72, "punch-top-right"),
  (73, "punch-bottom-right"),
  (74, "punch-dual-left"),
  (75, "punch-dual-top"),
  (76, "punch-dual-right"),
  (77, "punch-dual-bottom"),
  (78, "punch-triple-left"),
  (79, "punch-triple-top"),
  (80, "punch-triple-right"),
  (81, "punch-triple-bottom"),
  (82, "punch-quad-left"),
  (83, "punch-quad-top"),
  (84, "punch-quad-right"),
  (85, "punch-quad-bottom"),
  (86, "punch-multiple-left"),
  (87, "punch-multiple-top"),
  (88, "punch-multiple-right"),
  (89, "punch-multiple-bottom"),
  (90, "fold-accordion"),
  (91, "fold-double-gate"),
  (92, "fold-gate"),
  (93, "fold-half"),
  (94, "fold-half-z"),
  (95, "fold-left-gate"),
  (96, "fold-letter"),
  (97, "fold-parallel"),
  (98, "fold-poster"),
  (99, "fold-right-gate"),
  (100, "fold-z")]

/-- orientation_vals from the source. -/
def orientation_vals : List (Nat × String) := [
  (3, "portrait"),
  (4, "landscape"),
  (5, "reverse-landscape"),
  (6, "reverse-portrait"),
  (7, "none")]

/-- quality_vals from the source. -/
def quality_vals : List (Nat × String) := [
  (3, "draft"),
  (4, "normal"),
  (5, "high")]

/-- transmission_status_vals from the source. -/
def transmission_status_vals : List (Nat × String) := [
  (3, "pending"),
  (4, "pending-retry"),
  (5, "processing"),
  (7, "canceled"),
  (8, "aborted"),
  (9, "completed")]

/-- status_vals from the source. -/
def status_vals : List (Nat × String) := [
  (0x0000, "successful-ok"),
  (0x0001, "successful-ok-ignored-or-substituted-attributes"),
  (0x0002, "successful-ok-conflicting-attributes"),
  (0x0003, "successful-ok-ignored-subscriptions"),
  (0x0005, "successful-ok-too-many-events"),
  (0x0007, "successful-ok-events-complete"),
  (0x0400, "client-error-bad-request"),
  (0x0401, "client-error-forbidden"),
  (0x0402, "client-error-not-authenticated"),
  (0x0403, "client-error-not-authorized"),
  (0x0404, "client-error-not-possible"),
  (0x0405, "client-error-timeout"),
  (0x0406, "client-error-not-found"),
  (0x0407, "client-error-gone"),
  (0x0408, "client-error-request-entity-too-large"),
  (0x0409, "client-error-request-value-too-long"),
  (0x040A, "client-error-document-format-not-supported"),
  (0x040B, "client-error-attributes-or-values-not-supported"),
  (0x040C, "client-error-uri-scheme-not-supported"),
  (0x040D, "client-error-charset-not-supported"),
  (0x040E, "client-error-conflicting-attributes"),
  (0x040F, "client-error-compression-not-supported"),
  (0x0410, "client-error-compression-error"),
  (0x0411, "client-error-document-format-error"),
  (0x0412, "client-error-document-access-error"),
  (0x0413, "client-error-attributes-not-settable"),
  (0x0414, "client-error-ignored-all-subscriptions"),
  (0x0415, "client-error-too-many-subscriptions"),
  (0x0418, "client-error-document-password-error"),
  (0x0419, "client-error-document-permission-error"),
  (0x041A, "client-error-document-security-error"),
  (0x041B, "client-error-document-unprintable-error"),
  (0x041C, "client-error-account-info-needed"),
  (0x041D, "client-error-account-closed"),
  (0x041E, "client-error-account-limit-reached"),
  (0x041F, "client-error-account-authorization-failed"),
  (0x0420, "client-error-not-fetchable"),
  (0x0500, "server-error-internal-error"),
  (0x0501, "server-error-operation-not-supported"),
  (0x0502, "server-error-service-unavailable"),
  (0x0503, "server-error-version-not-supported"),
  (0x0504, "server-error-device-error"),
  (0x0505, "server-error-temporary-error"),
  (0x0506, "server-error-not-accepting-jobs"),
  (0x0507, "server-error-busy"),
  (0x0508, "server-error-job-canceled"),
  (0x0509, "server-error-multiple-document-jobs-not-supported"),
  (0x050A, "server-error-printer-is-deactivated"),
  (0x050B, "server-error-too-many-jobs"),
  (0x050C, "server-error-too-many-documents")]

/-- bool_vals from the source. -/
def bool_vals : List (Nat × String) := [
  (0x00, "false"),
  (0x01, "true")]

/-- Label for an attribute with a length-mismatched fixed-size value, from the
proto_tree_add_subtree_format calls of add_integer_tree. -/
def invalid_len_label (name : String) (kind : String) (len : Nat) (req : Nat) : String :=
  name ++ ": Invalid " ++ kind ++ " (length is " ++ toString len ++ ", should be " ++
    toString req ++ ")"

/-- add_integer_tree from the source: the label of the subtree created for a
named integer-class attribute (tag 0x21 integer, 0x22 boolean, 0x23 enum).
For enums the label additionally consults a per-name symbol table; each name
test is the source's tvb_memeql of the table name's byte count at the start of
the attribute name, guarded by name_length > 5. -/
def add_integer_tree (tvb : Tvb) (offset name_length value_length : Nat)
    (tag : Nat) : String :=
  let nameStr := format_text (listSlice tvb (offset + 1 + 2) name_length)
  let nameStart := offset + 1 + 2
  let valPos := offset + 1 + 2 + name_length + 2
  if tag == 0x22 then
    if value_length != 1 then invalid_len_label nameStr "boolean" value_length 1
    else nameStr ++ ": " ++
      val_to_str_const (tvb_get_guint8 tvb valPos) bool_vals
        ("Unknown (0x" ++ hex2 (tvb_get_guint8 tvb valPos) ++ ")")
  else if tag == 0x21 then
    if value_length != 4 then invalid_len_label nameStr "integer" value_length 4
    else nameStr ++ ": " ++ fmt_int32 (tvb_get_ntohl tvb valPos)
  else if tag == 0x23 then
    if value_length != 4 then invalid_len_label nameStr "enum" value_length 4
    else
      if decide (5 < name_length) && tvb_memeql_ok tvb nameStart (strBytes "printer-state") then
        nameStr ++ ": " ++
          val_to_str_const (tvb_get_ntohl tvb valPos) printer_state_vals "Unknown Printer State"
      else if decide (5 < name_length) && tvb_memeql_ok tvb nameStart (strBytes "job-state") then
        nameStr ++ ": " ++
          val_to_str_const (tvb_get_ntohl tvb valPos) job_state_vals "Unknown Job State"
      else if decide (5 < name_length) && tvb_memeql_ok tvb nameStart (strBytes "document-state") then
        nameStr ++ ": " ++
          val_to_str_const (tvb_get_ntohl tvb valPos) document_state_vals "Unknown Document State"
      else if decide (5 < name_length) && tvb_memeql_ok tvb nameStart (strBytes "operations-supported") then
        nameStr ++ ": " ++
          val_to_str_const (tvb_get_ntohl tvb valPos) operation_vals "Unknown Operation ID"
      else if decide (5 < name_length) && tvb_memeql_ok tvb nameStart (strBytes "finishings") then
        nameStr ++ ": " ++
          val_to_str_const (tvb_get_ntohl tvb valPos) finishings_vals "Unknown Finishings Value"
      else if decide (5 < name_length) &&
          (tvb_memeql_ok tvb nameStart (strBytes "orientation-requested") ||
           tvb_memeql_ok tvb nameStart (strBytes "media-feed-orientation")) then
        nameStr ++ ": " ++
          val_to_str_const (tvb_get_ntohl tvb valPos) orientation_vals "Unknown Orientation Value"
      else if decide (5 < name_length) && tvb_memeql_ok tvb nameStart (strBytes "print-quality") then
        nameStr ++ ": " ++
          val_to_str_const (tvb_get_ntohl tvb valPos) quality_vals "Unknown Print Quality"
      else if decide (5 < name_length) && tvb_memeql_ok tvb nameStart (strBytes "transmission-status") then
        nameStr ++ ": " ++
          val_to_str_const (tvb_get_ntohl tvb valPos) transmission_status_vals "Unknown Transmission Status"
      else
        nameStr ++ ": " ++ fmt_int32 (tvb_get_ntohl tvb valPos)
  else
    nameStr ++ ": Unknown integer type 0x" ++ hex2 tag

/-- The display field chosen by add_integer_value for the value bytes of an
integer-class record. -/
inductive IntValueField where
  | boolValue
  | printerState
  | jobState
  | uint32Value
  | noField
deriving DecidableEq

/-- add_integer_value from the source: which header field the value bytes are
attached under.  Unlike add_integer_tree, the name comparisons here are exact
strcmp matches against the whole extracted name. -/
def add_integer_value (tvb : Tvb) (offset name_length value_length : Nat)
    (tag : Nat) : IntValueField :=
  let nameBytes := listSlice tvb (offset + 1 + 2) name_length
  if tag == 0x22 then
    if value_length == 1 then .boolValue else .noField
  else if tag == 0x21 || tag == 0x23 then
    if value_length == 4 then
      if decide (5 < name_length) && (nameBytes == strBytes "printer-state") then .printerState
      else if decide (5 < name_length) && (nameBytes == strBytes "job-state") then .jobState
      else .uint32Value
    else .noField
  else .noField

/-- add_octetstring_tree from the source: the label of the subtree created for
a named octet-string-class attribute.  Tags: 0x30 octetString, 0x31 dateTime,
0x32 resolution, 0x33 rangeOfInteger, 0x35 textWithLanguage,
0x36 nameWithLanguage; everything else falls back to hex. -/
def add_octetstring_tree (tvb : Tvb) (offset : Nat) (tag : Nat)
    (name_length value_length : Nat) : String :=
  let valoffset := offset + 1 + 2 + name_length + 2
  let hexFallback := tvb_bytes_to_str (listSlice tvb valoffset value_length)
  let value : String :=
    if tag == 0x30 then
      format_text (listSlice tvb valoffset value_length)
    else if tag == 0x31 then
      if value_length == 11 then
        fmt04 (tvb_get_ntohs tvb valoffset) ++ "-" ++
          fmt02 (tvb_get_guint8 tvb (valoffset + 2)) ++ "-" ++
          fmt02 (tvb_get_guint8 tvb (valoffset + 3)) ++ "T" ++
          fmt02 (tvb_get_guint8 tvb (valoffset + 4)) ++ ":" ++
          fmt02 (tvb_get_guint8 tvb (valoffset + 5)) ++ ":" ++
          fmt02 (tvb_get_guint8 tvb (valoffset + 6)) ++ "." ++
          toString (tvb_get_guint8 tvb (valoffset + 7)) ++
          String.mk [Char.ofNat (tvb_get_guint8 tvb (valoffset + 8))] ++
          fmt02 (tvb_get_guint8 tvb (valoffset + 9)) ++
          fmt02 (tvb_get_guint8 tvb (valoffset + 10))
      else hexFallback
    else if tag == 0x32 then
      if value_length == 9 then
        fmt_int32 (tvb_get_ntohl tvb valoffset) ++ "x" ++
          fmt_int32 (tvb_get_ntohl tvb (valoffset + 4)) ++
          (if tvb_get_guint8 tvb (valoffset + 8) == 3 then "dpi"
           else if tvb_get_guint8 tvb (valoffset + 8) == 4 then "dpcm"
           else "unknown")
      else hexFallback
    else if tag == 0x33 then
      if value_length == 8 then
        fmt_int32 (tvb_get_ntohl tvb valoffset) ++ "-" ++
          fmt_int32 (tvb_get_ntohl tvb (valoffset + 4))
      else hexFallback
    else if tag == 0x35 || tag == 0x36 then
      if decide (4 ≤ value_length) then
        let language_length := tvb_get_ntohs tvb valoffset
        if tvb_offset_exists tvb (valoffset + 2 + language_length) then
          let string_length := tvb_get_ntohs tvb (valoffset + 2 + language_length)
          if tvb_offset_exists tvb (valoffset + 2 + language_length + 2 + string_length) then
            format_text (listSlice tvb (valoffset + 2 + language_length + 2) string_length) ++
              " (" ++ format_text (listSlice tvb (valoffset + 2) language_length) ++ ")"
          else hexFallback
        else hexFallback
      else hexFallback
    else hexFallback
  format_text (listSlice tvb (offset + 1 + 2) name_length) ++ ": " ++ value

/-- One structural record consumed by the attribute-sequence parser: either a
delimiter tag byte or a value record (any non-delimiter tag class, including
out-of-band and reserved classes, which consume the same byte span even though
they add no attribute subtree). -/
inductive AttrRec where
  | delim (tag : Nat) (offset : Nat)
  | value (tag : Nat) (name_length : Nat) (value_length : Nat) (offset : Nat)
deriving DecidableEq

/-- Outcome of parse_attributes: the final offset (its C return value), the
structural records consumed in order, whether the end-of-attributes delimiter
was reached, and whether the scan stopped because the buffer ended in the
middle of a record. -/
structure ParseResult where
  offset : Nat
  records : List AttrRec
  sawEnd : Bool
  truncated : Bool
deriving DecidableEq

/-- parse_attributes from the source, with an explicit fuel argument so that
the recursion is structural (the fuel is given below as one more than the
buffer length, which the termination theorem shows is always enough).  The loop
runs while a byte exists at the offset; a delimiter tag (high nibble 0)
advances by 1 and stops after end-of-attributes (0x03); any other tag reads
the 16-bit name length, the name, the 16-bit value length and the value, and
advances by 1 + 2 + name_length + 2 + value_length.  Modelled from the spec
(tvbuff accessors are not under src/): a record whose declared bytes are not
all inside the buffer is not decoded; the scan stops there (spec 4.3 step 3,
7(1)) and the stop is made observable through the truncated flag. -/
def parse_attributes_fuel : Nat → Tvb → Nat → Option ParseResult
  | 0, _, _ => none
  | fuel + 1, tvb, offset =>
    if offset < tvb.length then
      let tag := tvb_get_guint8 tvb offset
      if tag &&& 0xF0 == 0 then
        if tag == 3 then
          some ⟨offset + 1, [.delim tag offset], true, false⟩
        else
          (parse_attributes_fuel fuel tvb (offset + 1)).map fun r =>
            ⟨r.offset, .delim tag offset :: r.records, r.sawEnd, r.truncated⟩
      else
        if offset + 1 + 2 ≤ tvb.length then
          let name_length := tvb_get_ntohs tvb (offset + 1)
          if offset + 1 + 2 + name_length + 2 ≤ tvb.length then
            let value_length := tvb_get_ntohs tvb (offset + 1 + 2 + name_length)
            if offset + 1 + 2 + name_length + 2 + value_length ≤ tvb.length then
              (parse_attributes_fuel fuel tvb
                  (offset + 1 + 2 + name_length + 2 + value_length)).map fun r =>
                ⟨r.offset, .value tag name_length value_length offset :: r.records,
                  r.sawEnd, r.truncated⟩
            else some ⟨offset, [], false, true⟩
          else some ⟨offset, [], false, true⟩
        else some ⟨offset, [], false, true⟩
    else some ⟨offset, [], false, false⟩

/-- parse_attributes at its sufficient fuel.  The fuel-exhaustion default is
never returned (see the termination theorem). -/
def parse_attributes (tvb : Tvb) (offset : Nat) : ParseResult :=
  (parse_attributes_fuel (tvb.length + 1) tvb offset).getD ⟨offset, [], false, false⟩

/-- The declared byte span of the value record starting at a given offset:
1 + 2 + name_length + 2 + value_length. -/
def record_span (tvb : Tvb) (offset : Nat) : Nat :=
  1 + 2 + tvb_get_ntohs tvb (offset + 1) + 2 +
    tvb_get_ntohs tvb (offset + 1 + 2 + tvb_get_ntohs tvb (offset + 1))

/-- A consumed record lies entirely inside the buffer. -/
def rec_in_buffer (tvb : Tvb) : AttrRec → Prop
  | .delim _ off => off < tvb.length
  | .value _ nl vl off => off + 1 + 2 + nl + 2 + vl ≤ tvb.length

/-- An IPP request/response transaction as tracked per conversation
(ipp_transaction_t from the source). -/
structure IppTransaction where
  req_frame : Nat
  rep_frame : Nat
  req_time : Nat
deriving DecidableEq

/-- The per-conversation request-id map (ipp_conv_info_t.pdus).  Keys are the
32-bit request identifiers. -/
abbrev PduMap := List (Nat × IppTransaction)

/-- wmem_map_lookup: the transaction stored under a request id, if any. -/
def wmem_map_lookup (m : PduMap) (k : Nat) : Option IppTransaction :=
  (m.find? (fun p => p.1 == k)).map (fun p => p.2)

/-- wmem_map_insert: store a transaction under a request id, replacing any
existing entry for that id. -/
def wmem_map_insert (m : PduMap) (k : Nat) (v : IppTransaction) : PduMap :=
  (k, v) :: m.filter (fun p => p.1 != k)

/-- Per-frame inputs supplied by the framework to dissect_ipp: the direction
from the HTTP demultiplexer, the first-visit flag (negation of
PINFO_FD_VISITED), the frame number and the frame timestamp. -/
structure PacketInfo where
  is_request : Bool
  visited : Bool
  num : Nat
  abs_ts : Nat

/-- Everything dissect_ipp produces that the claims observe: the updated
request-id map, the transaction used for this frame, the protocol column text
and the attribute parse of the message body. -/
structure DissectResult where
  pdus : PduMap
  trans : IppTransaction
  col_info : String
  parse : ParseResult
deriving DecidableEq

/-- dissect_ipp from the source, restricted to its observable state: reads the
16-bit operation/status code at offset 2 and the 32-bit request id at offset 4;
on a first visit a request inserts a fresh transaction (response frame unset)
under the request id, overwriting any previous one, and a response looks its
request up and records the response frame; on later visits only a lookup is
performed; a missing transaction is replaced by a packet-scoped placeholder and
dissection continues; the attribute parser then runs from offset 8. -/
def dissect_ipp (tvb : Tvb) (pinfo : PacketInfo) (pdus : PduMap) : DissectResult :=
  let operation_status := tvb_get_ntohs tvb 2
  let request_id := tvb_get_ntohl tvb 4
  let info :=
    if pinfo.is_request then
      "IPP Request (" ++
        val_to_str_const operation_status operation_vals ("0x" ++ hex4 operation_status) ++ ")"
    else
      "IPP Response (" ++
        val_to_str_const operation_status status_vals ("0x" ++ hex4 operation_status) ++ ")"
  let stepped : PduMap × IppTransaction :=
    if !pinfo.visited then
      if pinfo.is_request then
        let t : IppTransaction := ⟨pinfo.num, 0, pinfo.abs_ts⟩
        (wmem_map_insert pdus request_id t, t)
      else
        match wmem_map_lookup pdus request_id with
        | some t => (wmem_map_insert pdus request_id ⟨t.req_frame, pinfo.num, t.req_time⟩,
            ⟨t.req_frame, pinfo.num, t.req_time⟩)
        | none => (pdus, ⟨0, 0, pinfo.abs_ts⟩)
    else
      match wmem_map_lookup pdus request_id with
      | some t => (pdus, t)
      | none => (pdus, ⟨0, 0, pinfo.abs_ts⟩)
  ⟨stepped.1, stepped.2, info, parse_attributes tvb 8⟩

/-! Helper lemmas about the request-id map and buffer slices. -/

theorem lookup_insert_self (m : PduMap) (k : Nat) (v : IppTransaction) :
    wmem_map_lookup (wmem_map_insert m k v) k = some v := by
  simp [wmem_map_lookup, wmem_map_insert, List.find?]

theorem listSlice_append_right (pre v : List Nat) (off : Nat) (h : pre.length = off) :
    listSlice (pre ++ v) off v.length = v := by
  subst h
  simp [listSlice]

/-! Helper lemmas about the fuelled attribute parser. -/

theorem pf_irrel : ∀ (f g : Nat) (tvb : Tvb) (off : Nat),
    tvb.length - off < f → tvb.length - off < g →
    parse_attributes_fuel f tvb off = parse_attributes_fuel g tvb off := by
  intro f
  induction f with
  | zero => intro g tvb off hf; omega
  | succ f ih =>
    intro g tvb off hf hg
    obtain ⟨g, rfl⟩ : ∃ g2, g = g2 + 1 := ⟨g - 1, by omega⟩
    simp only [parse_attributes_fuel]
    by_cases h1 : off < tvb.length
    · simp only [if_pos h1]
      by_cases h2 : (tvb_get_guint8 tvb off &&& 0xF0 == 0) = true
      · simp only [if_pos h2]
        by_cases h3 : (tvb_get_guint8 tvb off == 3) = true
        · simp only [if_pos h3]
        · simp only [if_neg h3]
          rw [ih g tvb (off + 1) (by omega) (by omega)]
      · simp only [if_neg h2]
        by_cases h4 : off + 1 + 2 ≤ tvb.length
        · simp only [if_pos h4]
          by_cases h5 : off + 1 + 2 + tvb_get_ntohs tvb (off + 1) + 2 ≤ tvb.length
          · simp only [if_pos h5]
            by_cases h6 : off + 1 + 2 + tvb_get_ntohs tvb (off + 1) + 2 +
                tvb_get_ntohs tvb (off + 1 + 2 + tvb_get_ntohs tvb (off + 1)) ≤ tvb.length
            · simp only [if_pos h6]
              rw [ih g tvb (off + 1 + 2 + tvb_get_ntohs tvb (off + 1) + 2 +
                  tvb_get_ntohs tvb (off + 1 + 2 + tvb_get_ntohs tvb (off + 1)))
                  (by omega) (by omega)]
            · simp only [if_neg h6]
          · simp only [if_neg h5]
        · simp only [if_neg h4]
    · simp only [if_neg h1]

theorem pf_isSome : ∀ (f : Nat) (tvb : Tvb) (off : Nat),
    tvb.length - off < f → (parse_attributes_fuel f tvb off).isSome = true := by
  intro f
  induction f with
  | zero => intro tvb off hf; omega
  | succ f ih =>
    intro tvb off hf
    simp only [parse_attributes_fuel]
    by_cases h1 : off < tvb.length
    · simp only [if_pos h1]
      by_cases h2 : (tvb_get_guint8 tvb off &&& 0xF0 == 0) = true
      · simp only [if_pos h2]
        by_cases h3 : (tvb_get_guint8 tvb off == 3) = true
        · simp only [if_pos h3, Option.isSome_some]
        · simp only [if_neg h3, Option.isSome_map']
          exact ih tvb (off + 1) (by omega)
      · simp only [if_neg h2]
        by_cases h4 : off + 1 + 2 ≤ tvb.length
        · simp only [if_pos h4]
          by_cases h5 : off + 1 + 2 + tvb_get_ntohs tvb (off + 1) + 2 ≤ tvb.length
          · simp only [if_pos h5]
            by_cases h6 : off + 1 + 2 + tvb_get_ntohs tvb (off + 1) + 2 +
                tvb_get_ntohs tvb (off + 1 + 2 + tvb_get_ntohs tvb (off + 1)) ≤ tvb.length
            · simp only [if_pos h6, Option.isSome_map']
              exact ih tvb _ (by omega)
            · simp only [if_neg h6, Option.isSome_some]
          · simp only [if_neg h5, Option.isSome_some]
        · simp only [if_neg h4, Option.isSome_some]
    · simp only [if_neg h1, Option.isSome_some]

theorem parse_some (tvb : Tvb) (off : Nat) :
    parse_attributes_fuel (tvb.length + 1) tvb off = some (parse_attributes tvb off) := by
  have h := pf_isSome (tvb.length + 1) tvb off (by omega)
  rw [parse_attributes]
  cases hp : parse_attributes_fuel (tvb.length + 1) tvb off with
  | none => rw [hp] at h; simp at h
  | some r => simp

theorem pf_offset_mono : ∀ (f : Nat) (tvb : Tvb) (off : Nat) (r : ParseResult),
    parse_attributes_fuel f tvb off = some r → off ≤ r.offset := by
  intro f
  induction f with
  | zero => intro tvb off r hr; simp [parse_attributes_fuel] at hr
  | succ f ih =>
    intro tvb off r hr
    simp only [parse_attributes_fuel] at hr
    by_cases h1 : off < tvb.length
    · rw [if_pos h1] at hr
      by_cases h2 : (tvb_get_guint8 tvb off &&& 0xF0 == 0) = true
      · rw [if_pos h2] at hr
        by_cases h3 : (tvb_get_guint8 tvb off == 3) = true
        · rw [if_pos h3] at hr
          cases hr
          simp
        · rw [if_neg h3] at hr
          obtain ⟨r2, hr2, hmap⟩ := Option.map_eq_some'.mp hr
          have := ih tvb (off + 1) r2 hr2
          cases hmap
          simp
          omega
      · rw [if_neg h2] at hr
        by_cases h4 : off + 1 + 2 ≤ tvb.length
        · rw [if_pos h4] at hr
          by_cases h5 : off + 1 + 2 + tvb_get_ntohs tvb (off + 1) + 2 ≤ tvb.length
          · rw [if_pos h5] at hr
            by_cases h6 : off + 1 + 2 + tvb_get_ntohs tvb (off + 1) + 2 +
                tvb_get_ntohs tvb (off + 1 + 2 + tvb_get_ntohs tvb (off + 1)) ≤ tvb.length
            · rw [if_pos h6] at hr
              obtain ⟨r2, hr2, hmap⟩ := Option.map_eq_some'.mp hr
              have := ih tvb _ r2 hr2
              cases hmap
              simp
              omega
            · rw [if_neg h6] at hr
              cases hr
              simp
          · rw [if_neg h5] at hr
            cases hr
            simp
        · rw [if_neg h4] at hr
          cases hr
          simp
    · rw [if_neg h1] at hr
      cases hr
      simp

theorem pf_records_bounded : ∀ (f : Nat) (tvb : Tvb) (off : Nat) (r : ParseResult),
    parse_attributes_fuel f tvb off = some r → ∀ a ∈ r.records, rec_in_buffer tvb a := by
  intro f
  induction f with
  | zero => intro tvb off r hr; simp [parse_attributes_fuel] at hr
  | succ f ih =>
    intro tvb off r hr
    simp only [parse_attributes_fuel] at hr
    by_cases h1 : off < tvb.length
    · rw [if_pos h1] at hr
      by_cases h2 : (tvb_get_guint8 tvb off &&& 0xF0 == 0) = true
      · rw [if_pos h2] at hr
        by_cases h3 : (tvb_get_guint8 tvb off == 3) = true
        · rw [if_pos h3] at hr
          cases hr
          intro a ha
          simp at ha
          subst ha
          exact h1
        · rw [if_neg h3] at hr
          obtain ⟨r2, hr2, hmap⟩ := Option.map_eq_some'.mp hr
          cases hmap
          intro a ha
          simp at ha
          rcases ha with ha | ha
          · subst ha; exact h1
          · exact ih tvb (off + 1) r2 hr2 a ha
      · rw [if_neg h2] at hr
        by_cases h4 : off + 1 + 2 ≤ tvb.length
        · rw [if_pos h4] at hr
          by_cases h5 : off + 1 + 2 + tvb_get_ntohs tvb (off + 1) + 2 ≤ tvb.length
          · rw [if_pos h5] at hr
            by_cases h6 : off + 1 + 2 + tvb_get_ntohs tvb (off + 1) + 2 +
                tvb_get_ntohs tvb (off + 1 + 2 + tvb_get_ntohs tvb (off + 1)) ≤ tvb.length
            · rw [if_pos h6] at hr
              obtain ⟨r2, hr2, hmap⟩ := Option.map_eq_some'.mp hr
              cases hmap
              intro a ha
              simp at ha
              rcases ha with ha | ha
              · subst ha
                simpa [rec_in_buffer] using h6
              · exact ih tvb _ r2 hr2 a ha
            · rw [if_neg h6] at hr
              cases hr
              intro a ha
              simp at ha
          · rw [if_neg h5] at hr
            cases hr
            intro a ha
            simp at ha
        · rw [if_neg h4] at hr
          cases hr
          intro a ha
          simp at ha
    · rw [if_neg h1] at hr
      cases hr
      intro a ha
      simp at ha

theorem pf_progress (tvb : Tvb) (off : Nat) (r : ParseResult)
    (hr : parse_attributes_fuel (tvb.length + 1) tvb off = some r)
    (h1 : off < tvb.length) :
    off < r.offset ∨ r = ⟨off, [], false, true⟩ := by
  simp only [parse_attributes_fuel] at hr
  rw [if_pos h1] at hr
  by_cases h2 : (tvb_get_guint8 tvb off &&& 0xF0 == 0) = true
  · rw [if_pos h2] at hr
    by_cases h3 : (tvb_get_guint8 tvb off == 3) = true
    · rw [if_pos h3] at hr
      cases hr
      left
      simp
    · rw [if_neg h3] at hr
      obtain ⟨r2, hr2, hmap⟩ := Option.map_eq_some'.mp hr
      have := pf_offset_mono _ _ _ _ hr2
      cases hmap
      left
      simp
      omega
  · rw [if_neg h2] at hr
    by_cases h4 : off + 1 + 2 ≤ tvb.length
    · rw [if_pos h4] at hr
      by_cases h5 : off + 1 + 2 + tvb_get_ntohs tvb (off + 1) + 2 ≤ tvb.length
      · rw [if_pos h5] at hr
        by_cases h6 : off + 1 + 2 + tvb_get_ntohs tvb (off + 1) + 2 +
            tvb_get_ntohs tvb (off + 1 + 2 + tvb_get_ntohs tvb (off + 1)) ≤ tvb.length
        · rw [if_pos h6] at hr
          obtain ⟨r2, hr2, hmap⟩ := Option.map_eq_some'.mp hr
          have := pf_offset_mono _ _ _ _ hr2
          cases hmap
          left
          simp
          omega
        · rw [if_neg h6] at hr
          cases hr
          right
          rfl
      · rw [if_neg h5] at hr
        cases hr
        right
        rfl
    · rw [if_neg h4] at hr
      cases hr
      right
      rfl

theorem parse_value_unfold (tvb : Tvb) (off : Nat)
    (h2 : (tvb_get_guint8 tvb off &&& 0xF0 == 0) = false)
    (h6 : off + 1 + 2 + tvb_get_ntohs tvb (off + 1) + 2 +
        tvb_get_ntohs tvb (off + 1 + 2 + tvb_get_ntohs tvb (off + 1)) ≤ tvb.length) :
    parse_attributes tvb off =
      ⟨(parse_attributes tvb (off + 1 + 2 + tvb_get_ntohs tvb (off + 1) + 2 +
          tvb_get_ntohs tvb (off + 1 + 2 + tvb_get_ntohs tvb (off + 1)))).offset,
        AttrRec.value (tvb_get_guint8 tvb off) (tvb_get_ntohs tvb (off + 1))
          (tvb_get_ntohs tvb (off + 1 + 2 + tvb_get_ntohs tvb (off + 1))) off ::
          (parse_attributes tvb (off + 1 + 2 + tvb_get_ntohs tvb (off + 1) + 2 +
            tvb_get_ntohs tvb (off + 1 + 2 + tvb_get_ntohs tvb (off + 1)))).records,
        (parse_attributes tvb (off + 1 + 2 + tvb_get_ntohs tvb (off + 1) + 2 +
          tvb_get_ntohs tvb (off + 1 + 2 + tvb_get_ntohs tvb (off + 1)))).sawEnd,
        (parse_attributes tvb (off + 1 + 2 + tvb_get_ntohs tvb (off + 1) + 2 +
          tvb_get_ntohs tvb (off + 1 + 2 + tvb_get_ntohs tvb (off + 1)))).truncated⟩ := by
  have h1 : off < tvb.length := by omega
  have h4 : off + 1 + 2 ≤ tvb.length := by omega
  have h5 : off + 1 + 2 + tvb_get_ntohs tvb (off + 1) + 2 ≤ tvb.length := by omega
  have hkey : parse_attributes_fuel (tvb.length + 1) tvb off =
      (parse_attributes_fuel tvb.length tvb
        (off + 1 + 2 + tvb_get_ntohs tvb (off + 1) + 2 +
          tvb_get_ntohs tvb (off + 1 + 2 + tvb_get_ntohs tvb (off + 1)))).map fun r =>
        ⟨r.offset, AttrRec.value (tvb_get_guint8 tvb off) (tvb_get_ntohs tvb (off + 1))
          (tvb_get_ntohs tvb (off + 1 + 2 + tvb_get_ntohs tvb (off + 1))) off :: r.records,
          r.sawEnd, r.truncated⟩ := by
    simp only [parse_attributes_fuel]
    rw [if_pos h1, if_neg (by simp [h2]), if_pos h4, if_pos h5, if_pos h6]
  rw [pf_irrel tvb.length (tvb.length + 1) tvb
    (off + 1 + 2 + tvb_get_ntohs tvb (off + 1) + 2 +
      tvb_get_ntohs tvb (off + 1 + 2 + tvb_get_ntohs tvb (off + 1)))
    (by omega) (by omega)] at hkey
  have hs := parse_some tvb off
  have hs2 := parse_some tvb (off + 1 + 2 + tvb_get_ntohs tvb (off + 1) + 2 +
    tvb_get_ntohs tvb (off + 1 + 2 + tvb_get_ntohs tvb (off + 1)))
  rw [hs, hs2] at hkey
  simpa using hkey

theorem mkRecord_name_slice (tag : Nat) (name v : List Nat) :
    listSlice (mkRecord tag name v) (0 + 1 + 2) name.length = name := by
  simp only [mkRecord, be16, listSlice, List.cons_append, List.nil_append, List.append_assoc]
  norm_num

theorem mkRecord_value_slice (tag : Nat) (name v : List Nat) :
    listSlice (mkRecord tag name v) (0 + 1 + 2 + name.length + 2) v.length = v := by
  simp only [mkRecord]
  exact listSlice_append_right _ v _ (by simp [be16]; omega)

/-! The claims. -/

/-- C1 counterexample: the name "printer-statex" is a strict extension of
"printer-state" and is not one of the nine well-known enum attribute names, so
by the claim its 4-byte enum value 3 would render as the plain signed integer
"printer-statex: 3"; the code instead matches the first 13 name bytes against
"printer-state" and renders the symbolic "printer-statex: idle". -/
theorem C1_counterexample :
    add_integer_tree (mkRecord 0x23 (strBytes "printer-statex") [0, 0, 0, 3]) 0 14 4 0x23 =
      "printer-statex: idle"
    ∧ add_integer_tree (mkRecord 0x23 (strBytes "printer-statex") [0, 0, 0, 3]) 0 14 4 0x23 ≠
      "printer-statex: 3" := by
  constructor
  · rfl
  · decide

/-- C1 (amended): for a 4-byte Enum value the symbolic lookup is selected when
name_length exceeds 5 and the buffer bytes at the start of the name agree with
one of the nine well-known names over that name's whole byte count (a leading-
bytes comparison, so strict extensions such as "printer-statex" also select the
table); an exact well-known name selects its table, a value absent from the
selected table renders as an "Unknown <Category>" placeholder, and a name
matching none of the nine patterns renders the value as a plain signed
integer.  The separate per-value header field of add_integer_value, by
contrast, is chosen by exact full-name comparison. -/
theorem C1_enum_name_selection_amended :
    (∀ a b c d : Nat,
      add_integer_tree (mkRecord 0x23 (strBytes "printer-statex") [a, b, c, d]) 0 14 4 0x23 =
        "printer-statex: " ++
          val_to_str_const (be32val a b c d) printer_state_vals "Unknown Printer State")
    ∧ add_integer_tree (mkRecord 0x23 (strBytes "job-state") [0, 0, 0, 5]) 0 9 4 0x23 =
        "job-state: processing"
    ∧ add_integer_tree (mkRecord 0x23 (strBytes "job-state") [0, 0, 0, 99]) 0 9 4 0x23 =
        "job-state: Unknown Job State"
    ∧ (∀ a b c d : Nat,
      add_integer_tree (mkRecord 0x23 (strBytes "media-col-ready") [a, b, c, d]) 0 15 4 0x23 =
        "media-col-ready: " ++ fmt_int32 (be32val a b c d))
    ∧ add_integer_value (mkRecord 0x23 (strBytes "printer-statex") [0, 0, 0, 3]) 0 14 4 0x23 =
        IntValueField.uint32Value
    ∧ add_integer_value (mkRecord 0x23 (strBytes "printer-state") [0, 0, 0, 3]) 0 13 4 0x23 =
        IntValueField.printerState := by
  refine ⟨fun a b c d => rfl, rfl, by decide, fun a b c d => rfl, by decide, by decide⟩

/-- C2: on every input, including a buffer that ends in the middle of a value
record, the attribute scan only ever decodes records whose declared bytes all
lie inside the buffer (a partial trailing record is never decoded), and the
scan always produces a result within the length-bounded fuel, i.e. it
terminates normally rather than aborting. -/
theorem C2_truncation_stops_cleanly (tvb : Tvb) (offset : Nat) :
    (∀ a ∈ (parse_attributes tvb offset).records, rec_in_buffer tvb a)
    ∧ (parse_attributes_fuel (tvb.length + 1) tvb offset).isSome = true := by
  constructor
  · intro a ha
    exact pf_records_bounded (tvb.length + 1) tvb offset _ (parse_some tvb offset) a ha
  · exact pf_isSome (tvb.length + 1) tvb offset (by omega)

/-- C2 witness: on the buffer 0x01 0x21 0x00 0x05, which ends after the tag
byte and one header byte of a value record, the only decoded record is the
leading delimiter, and it lies inside the buffer. -/
theorem C2_witness : rec_in_buffer [0x01, 0x21, 0x00, 0x05] (AttrRec.delim 1 0) :=
  (C2_truncation_stops_cleanly [0x01, 0x21, 0x00, 0x05] 0).1 (AttrRec.delim 1 0) (by decide)

/-- C3 counterexample: the claim says the 9-byte Resolution value
(xres 300, yres 600, unit 4) renders "300x600dpi"; the code renders unit 4 as
"dpcm", giving "300x600dpcm". -/
theorem C3_counterexample :
    add_octetstring_tree (mkRecord 0x32 [] [0, 0, 1, 44, 0, 0, 2, 88, 4]) 0 0x32 0 9 =
      ": 300x600dpcm"
    ∧ add_octetstring_tree (mkRecord 0x32 [] [0, 0, 1, 44, 0, 0, 2, 88, 4]) 0 0x32 0 9 ≠
      ": 300x600dpi" := by
  constructor
  · rfl
  · decide

/-- C3 (amended): a 9-byte Resolution value (600, 600, 3) renders "600x600dpi"
and (300, 600, 4) renders "300x600dpcm" (unit 3 is dpi, unit 4 is dpcm). -/
theorem C3_resolution_amended :
    add_octetstring_tree
        (mkRecord 0x32 (strBytes "printer-resolution-default") [0, 0, 2, 88, 0, 0, 2, 88, 3])
        0 0x32 (strBytes "printer-resolution-default").length 9 =
      "printer-resolution-default: 600x600dpi"
    ∧ add_octetstring_tree
        (mkRecord 0x32 (strBytes "printer-resolution-default") [0, 0, 1, 44, 0, 0, 2, 88, 4])
        0 0x32 (strBytes "printer-resolution-default").length 9 =
      "printer-resolution-default: 300x600dpcm" := by
  exact ⟨rfl, rfl⟩

/-- C4: a value record whose declared bytes are all present is consumed by
advancing the offset by exactly 1 + 2 + name_length + 2 + value_length (the
record_span), regardless of the value's well-formedness, so the remaining
records stay aligned; a Boolean, Integer or Enum record whose declared value
length differs from the required fixed size (1 or 4 bytes) is rendered as an
"Invalid ... (length is N, should be M)" note while still occupying its
declared span. -/
theorem C4_advance_by_declared_lengths (tvb : Tvb) (offset : Nat)
    (h2 : (tvb_get_guint8 tvb offset &&& 0xF0 == 0) = false)
    (h6 : offset + 1 + 2 + tvb_get_ntohs tvb (offset + 1) + 2 +
        tvb_get_ntohs tvb (offset + 1 + 2 + tvb_get_ntohs tvb (offset + 1)) ≤ tvb.length) :
    ((parse_attributes tvb offset).records =
        AttrRec.value (tvb_get_guint8 tvb offset) (tvb_get_ntohs tvb (offset + 1))
            (tvb_get_ntohs tvb (offset + 1 + 2 + tvb_get_ntohs tvb (offset + 1))) offset ::
          (parse_attributes tvb (offset + record_span tvb offset)).records)
    ∧ (parse_attributes tvb offset).offset =
        (parse_attributes tvb (offset + record_span tvb offset)).offset
    ∧ offset + record_span tvb offset =
        offset + 1 + 2 + tvb_get_ntohs tvb (offset + 1) + 2 +
          tvb_get_ntohs tvb (offset + 1 + 2 + tvb_get_ntohs tvb (offset + 1))
    ∧ (∀ nl vl : Nat, vl ≠ 1 →
        add_integer_tree tvb offset nl vl 0x22 =
          invalid_len_label (format_text (listSlice tvb (offset + 1 + 2) nl)) "boolean" vl 1)
    ∧ (∀ nl vl : Nat, vl ≠ 4 →
        add_integer_tree tvb offset nl vl 0x21 =
          invalid_len_label (format_text (listSlice tvb (offset + 1 + 2) nl)) "integer" vl 4)
    ∧ (∀ nl vl : Nat, vl ≠ 4 →
        add_integer_tree tvb offset nl vl 0x23 =
          invalid_len_label (format_text (listSlice tvb (offset + 1 + 2) nl)) "enum" vl 4) := by
  have hspan : offset + record_span tvb offset =
      offset + 1 + 2 + tvb_get_ntohs tvb (offset + 1) + 2 +
        tvb_get_ntohs tvb (offset + 1 + 2 + tvb_get_ntohs tvb (offset + 1)) := by
    unfold record_span
    omega
  have hstep := parse_value_unfold tvb offset h2 h6
  refine ⟨?_, ?_, hspan, ?_, ?_, ?_⟩
  · rw [hspan, hstep]
  · rw [hspan, hstep]
  · intro nl vl hvl
    simp only [add_integer_tree]
    rw [if_pos (by decide), if_pos (by simp [hvl])]
  · intro nl vl hvl
    simp only [add_integer_tree]
    rw [if_neg (by decide), if_pos (by decide), if_pos (by simp [hvl])]
  · intro nl vl hvl
    simp only [add_integer_tree]
    rw [if_neg (by decide), if_neg (by decide), if_pos (by decide), if_pos (by simp [hvl])]

/-- C4 witness: the buffer 0x21 0x0001 'a' 0x0002 0x07 0x07 holds an Integer
record whose declared value length 2 is invalid, yet the record is consumed as
a whole (span 8) and the label carries the invalid-length note. -/
theorem C4_witness :
    ((parse_attributes [0x21, 0, 1, 97, 0, 2, 7, 7] 0).records =
        AttrRec.value 0x21 1 2 0 ::
          (parse_attributes [0x21, 0, 1, 97, 0, 2, 7, 7]
            (0 + record_span [0x21, 0, 1, 97, 0, 2, 7, 7] 0)).records)
    ∧ add_integer_tree [0x21, 0, 1, 97, 0, 2, 7, 7] 0 1 2 0x21 =
        "a: Invalid integer (length is 2, should be 4)" := by
  obtain ⟨hrec, hoff, hspan, hbool, hint, henum⟩ :=
    C4_advance_by_declared_lengths [0x21, 0, 1, 97, 0, 2, 7, 7] 0 (by decide) (by decide)
  exact ⟨hrec, hint 1 2 (by decide)⟩

/-- C5: on a first visit, a response whose 32-bit request identifier has no
recorded request leaves the conversation store untouched, uses the placeholder
transaction (both frames unset) and still dissects the message; a first-visit
request whose identifier is already present replaces the stored transaction
with a fresh one whose response frame is unset. -/
theorem C5_store_miss_and_overwrite (tvb : Tvb) (pinfo : PacketInfo) (pdus : PduMap)
    (hv : pinfo.visited = false) :
    (pinfo.is_request = false → wmem_map_lookup pdus (tvb_get_ntohl tvb 4) = none →
      (dissect_ipp tvb pinfo pdus).pdus = pdus
      ∧ (dissect_ipp tvb pinfo pdus).trans = ⟨0, 0, pinfo.abs_ts⟩
      ∧ (dissect_ipp tvb pinfo pdus).parse = parse_attributes tvb 8)
    ∧ (pinfo.is_request = true → ∀ t0 : IppTransaction,
        wmem_map_lookup pdus (tvb_get_ntohl tvb 4) = some t0 →
        wmem_map_lookup (dissect_ipp tvb pinfo pdus).pdus (tvb_get_ntohl tvb 4) =
          some ⟨pinfo.num, 0, pinfo.abs_ts⟩) := by
  constructor
  · intro hreq hnone
    simp [dissect_ipp, hv, hreq, hnone]
  · intro hreq t0 h0
    simp [dissect_ipp, hv, hreq, lookup_insert_self]

/-- C5 witness: with the 8-byte header carrying request id 5, a first-visit
response on an empty store leaves the store empty, and a first-visit request on
a store already holding id 5 overwrites it with the fresh transaction
(request frame 9, response frame unset). -/
theorem C5_witness :
    (dissect_ipp [1, 1, 0, 11, 0, 0, 0, 5] ⟨false, false, 7, 100⟩ []).pdus = []
    ∧ wmem_map_lookup
        (dissect_ipp [1, 1, 0, 11, 0, 0, 0, 5] ⟨true, false, 9, 200⟩
          [(5, ⟨2, 3, 50⟩)]).pdus 5 = some ⟨9, 0, 200⟩ := by
  refine ⟨((C5_store_miss_and_overwrite [1, 1, 0, 11, 0, 0, 0, 5]
      ⟨false, false, 7, 100⟩ [] rfl).1 rfl (by decide)).1,
    (C5_store_miss_and_overwrite [1, 1, 0, 11, 0, 0, 0, 5]
      ⟨true, false, 9, 200⟩ [(5, ⟨2, 3, 50⟩)] rfl).2 rfl ⟨2, 3, 50⟩ (by decide)⟩

/-- C6 counterexample: the claim says the two 4-byte fields of an 8-byte
RangeOfInteger value are rendered as unsigned decimals, so a lower field of
0x80000000 would render "2147483648-1"; the code prints them with a signed
conversion and renders "-2147483648-1". -/
theorem C6_counterexample :
    add_octetstring_tree (mkRecord 0x33 [] [0x80, 0, 0, 0, 0, 0, 0, 1]) 0 0x33 0 8 =
      ": -2147483648-1"
    ∧ add_octetstring_tree (mkRecord 0x33 [] [0x80, 0, 0, 0, 0, 0, 0, 1]) 0 0x33 0 8 ≠
      ": 2147483648-1" := by
  constructor
  · rfl
  · decide

/-- C6 (amended): for every 8-byte RangeOfInteger value the two 4-byte
big-endian fields are rendered as "lower-upper" with each field printed as a
two's-complement signed 32-bit decimal (so 0x80000000 renders -2147483648);
any other declared length falls back to the hex rendering of the value
bytes. -/
theorem C6_range_signed_amended :
    (∀ a b c d e f g h : Nat,
      add_octetstring_tree (mkRecord 0x33 (strBytes "copies-supported") [a, b, c, d, e, f, g, h])
          0 0x33 (strBytes "copies-supported").length 8 =
        "copies-supported: " ++
          (fmt_int32 (be32val a b c d) ++ "-" ++ fmt_int32 (be32val e f g h)))
    ∧ (∀ v : List Nat, v.length ≠ 8 →
      add_octetstring_tree (mkRecord 0x33 (strBytes "copies-supported") v)
          0 0x33 (strBytes "copies-supported").length v.length =
        "copies-supported: " ++ tvb_bytes_to_str v) := by
  constructor
  · intro a b c d e f g h
    rfl
  · intro v hv
    have hb : (v.length == 8) = false := beq_eq_false_iff_ne.mpr hv
    simp only [add_octetstring_tree]
    rw [if_neg (by decide), if_neg (by decide), if_neg (by decide), if_pos (by decide),
      if_neg (by simp [hb])]
    rw [mkRecord_value_slice, mkRecord_name_slice]
    rfl

/-- C6 amended witness: a 5-byte RangeOfInteger value falls back to its hex
rendering. -/
theorem C6_witness :
    add_octetstring_tree (mkRecord 0x33 (strBytes "copies-supported") [1, 2, 3, 4, 5])
        0 0x33 (strBytes "copies-supported").length 5 =
      "copies-supported: " ++ tvb_bytes_to_str [1, 2, 3, 4, 5] :=
  C6_range_signed_amended.2 [1, 2, 3, 4, 5] (by decide)

/-- C7 counterexample: a TextWithLanguage value of declared length 4 whose
nested string length points one byte past the value's declared range is, by
the claim, rendered as the raw hex of the value; the code checks the nested
lengths against the end of the whole buffer instead, reads the byte 0x41
('A') that lies beyond the declared value range, and renders ": A ()". -/
theorem C7_counterexample :
    add_octetstring_tree (mkRecord 0x35 [] [0, 0, 0, 1] ++ [0x41, 0x42]) 0 0x35 0 4 =
      ": A ()"
    ∧ add_octetstring_tree (mkRecord 0x35 [] [0, 0, 0, 1] ++ [0x41, 0x42]) 0 0x35 0 4 ≠
      ": " ++ tvb_bytes_to_str [0, 0, 0, 1] := by
  constructor
  · rfl
  · decide

/-- C7 (amended): the nested language/string lengths of a TextWithLanguage or
NameWithLanguage value are bounds-checked against the end of the whole message
buffer, not against the value's declared range: when the nested lengths stay
inside the buffer the rendering may consume bytes past the declared value
range (and so depends on them), while nested lengths running past the buffer,
or a value shorter than 4 bytes, fall back to the raw hex of the declared
value bytes; nested lengths that leave at least one byte after the nested
string render "string (language)", and a nested string ending exactly at the
buffer end also falls back to hex (the existence checks demand a byte at the
position following each nested field). -/
theorem C7_twl_buffer_bounds_amended :
    add_octetstring_tree (mkRecord 0x35 [] [0, 0, 0, 1] ++ [0x5A, 0x37]) 0 0x35 0 4 =
      ": Z ()"
    ∧ add_octetstring_tree (mkRecord 0x35 [] [0, 0, 0, 1] ++ [0x58, 0x37]) 0 0x35 0 4 =
      ": X ()"
    ∧ add_octetstring_tree (mkRecord 0x35 [] [0, 0, 0, 1]) 0 0x35 0 4 =
      ": " ++ tvb_bytes_to_str [0, 0, 0, 1]
    ∧ add_octetstring_tree (mkRecord 0x35 [] [0, 0]) 0 0x35 0 2 =
      ": " ++ tvb_bytes_to_str [0, 0]
    ∧ add_octetstring_tree
        (mkRecord 0x36 (strBytes "job-name")
          ([0, 2] ++ strBytes "fr" ++ [0, 5] ++ strBytes "hello") ++ [0x03])
        0 0x36 (strBytes "job-name").length 11 =
      "job-name: hello (fr)"
    ∧ add_octetstring_tree
        (mkRecord 0x36 (strBytes "job-name")
          ([0, 2] ++ strBytes "fr" ++ [0, 5] ++ strBytes "hello"))
        0 0x36 (strBytes "job-name").length 11 =
      "job-name: " ++
        tvb_bytes_to_str ([0, 2] ++ strBytes "fr" ++ [0, 5] ++ strBytes "hello") := by
  exact ⟨rfl, rfl, by decide, by decide, by decide, by decide⟩

/-- C8: on any revisit of an already-processed message the dissector leaves
the conversation's request-id map exactly as it was: the map and therefore its
key set and every stored transaction are unchanged, for requests and responses
alike. -/
theorem C8_revisit_readonly (tvb : Tvb) (pinfo : PacketInfo) (pdus : PduMap)
    (hv : pinfo.visited = true) :
    (dissect_ipp tvb pinfo pdus).pdus = pdus
    ∧ ∀ k : Nat, wmem_map_lookup (dissect_ipp tvb pinfo pdus).pdus k =
        wmem_map_lookup pdus k := by
  cases hl : wmem_map_lookup pdus (tvb_get_ntohl tvb 4) <;>
    simp [dissect_ipp, hv, hl]

/-- C8 witness: revisiting a request whose id 5 is stored (and also one whose
id is absent) leaves the one-entry store intact. -/
theorem C8_witness :
    (dissect_ipp [1, 1, 0, 11, 0, 0, 0, 5] ⟨true, true, 9, 300⟩
        [(5, ⟨2, 3, 50⟩)]).pdus = [(5, ⟨2, 3, 50⟩)]
    ∧ (dissect_ipp [1, 1, 0, 11, 0, 0, 0, 9] ⟨false, true, 9, 300⟩
        [(5, ⟨2, 3, 50⟩)]).pdus = [(5, ⟨2, 3, 50⟩)] :=
  ⟨(C8_revisit_readonly [1, 1, 0, 11, 0, 0, 0, 5] ⟨true, true, 9, 300⟩
      [(5, ⟨2, 3, 50⟩)] rfl).1,
    (C8_revisit_readonly [1, 1, 0, 11, 0, 0, 0, 9] ⟨false, true, 9, 300⟩
      [(5, ⟨2, 3, 50⟩)] rfl).1⟩

/-- C9: the 11-byte DateTime value 0x07E8 03 0F 0C 1E 00 00 2B 00 00 renders
exactly "2024-03-15T12:30:00.0+0000" (big-endian u16 year, then month, day,
hour, minute, second, decisecond, a literal sign byte, utc-hour, utc-minute),
and a DateTime value of any other length falls back to the hex rendering of
its bytes. -/
theorem C9_datetime_rendering :
    add_octetstring_tree
        (mkRecord 0x31 (strBytes "date-time-at-creation")
          [0x07, 0xE8, 0x03, 0x0F, 0x0C, 0x1E, 0x00, 0x00, 0x2B, 0x00, 0x00])
        0 0x31 (strBytes "date-time-at-creation").length 11 =
      "date-time-at-creation: 2024-03-15T12:30:00.0+0000"
    ∧ (∀ v : List Nat, v.length ≠ 11 →
      add_octetstring_tree (mkRecord 0x31 (strBytes "date-time-at-creation") v)
          0 0x31 (strBytes "date-time-at-creation").length v.length =
        "date-time-at-creation: " ++ tvb_bytes_to_str v) := by
  constructor
  · rfl
  · intro v hv
    have hb : (v.length == 11) = false := beq_eq_false_iff_ne.mpr hv
    simp only [add_octetstring_tree]
    rw [if_neg (by decide), if_pos (by decide), if_neg (by simp [hb])]
    rw [mkRecord_value_slice, mkRecord_name_slice]
    rfl

/-- C9 witness: a 3-byte DateTime value falls back to its hex rendering. -/
theorem C9_witness :
    add_octetstring_tree (mkRecord 0x31 (strBytes "date-time-at-creation") [1, 2, 3])
        0 0x31 (strBytes "date-time-at-creation").length 3 =
      "date-time-at-creation: " ++ tvb_bytes_to_str [1, 2, 3] :=
  C9_datetime_rendering.2 [1, 2, 3] (by decide)

/-- C10: for every buffer and starting offset the attribute scan terminates:
the fuel bounded by the buffer length always suffices (the fuelled parser
returns a result), the final offset never moves backwards, every value record
(any non-delimiter tag class) spans at least 5 bytes, and from any in-buffer
offset one loop iteration either strictly advances the offset (by 1 for a
delimiter, by the declared record span otherwise) or stops the scan at a
truncated record. -/
theorem C10_parse_terminates (tvb : Tvb) (offset : Nat) :
    (parse_attributes_fuel (tvb.length + 1) tvb offset).isSome = true
    ∧ offset ≤ (parse_attributes tvb offset).offset
    ∧ (offset < tvb.length → 5 ≤ record_span tvb offset)
    ∧ (offset < tvb.length →
        offset < (parse_attributes tvb offset).offset ∨
          parse_attributes tvb offset = ⟨offset, [], false, true⟩) := by
  refine ⟨pf_isSome (tvb.length + 1) tvb offset (by omega),
    pf_offset_mono (tvb.length + 1) tvb offset _ (parse_some tvb offset), ?_, ?_⟩
  · intro _
    unfold record_span
    omega
  · intro h1
    exact pf_progress tvb offset _ (parse_some tvb offset) h1

/-- C10 witness: on a 7-byte buffer holding a delimiter followed by a value
record, the fuelled parse returns, the record span is at least 5 and the first
iteration strictly advances. -/
theorem C10_witness :
    (parse_attributes_fuel ((7 : Nat) + 1) [1, 0x21, 0, 0, 0, 1, 9] 0).isSome = true
    ∧ 5 ≤ record_span [1, 0x21, 0, 0, 0, 1, 9] 1
    ∧ (0 < (parse_attributes [1, 0x21, 0, 0, 0, 1, 9] 0).offset ∨
        parse_attributes [1, 0x21, 0, 0, 0, 1, 9] 0 = ⟨0, [], false, true⟩) := by
  obtain ⟨h1, h2, h3, h4⟩ := C10_parse_terminates [1, 0x21, 0, 0, 0, 1, 9] 0
  obtain ⟨g1, g2, g3, g4⟩ := C10_parse_terminates [1, 0x21, 0, 0, 0, 1, 9] 1
  exact ⟨h1, g3 (by decide), h4 (by decide)⟩

end Ipp
